import Mathlib

/-!
Verification of the pubsub-shovel relay engine.

The repository contains two near-duplicate implementations of one relay
algorithm:

* `processShovelRequest` (package `shovel`, the deployed `Handler` entry
  point): the admission-and-relay core with a mutex-guarded
  check-and-increment on `acceptedCount`, an ack/nack discipline per
  message, mode-dependent wall-clock timeouts (5 min bounded,
  10 min unbounded) and a fixed 2-second grace sleep before reading the
  final counters.
* `processMessages` (root `main.go`): a duplicate entry point with a flat
  10-minute receive timeout.

The embedding below translates both: the concurrent engine of
`processShovelRequest` becomes a small-step transition system whose atomic
steps are exactly the mutex-guarded regions of the Go code, and the
sequential precondition/result paths of both functions become pure
functions over an abstract environment recording the outcomes of the
external pubsub calls.
-/

/-- The HTTP request payload (`ShovelRequest` in both Go files).
`numMessages` is a Go `int`, so it is modelled as `Int` (it may be
negative before validation). -/
structure ShovelRequest where
  numMessages : Int
  allMessages : Bool
  sourceSubscription : String
  targetTopic : String
  deriving Repr, DecidableEq

/-- Job-scoped relay counters.  `acceptedCount` and `processedCount` are
the two Go variables of `processShovelRequest` (lines 158-159).
`failedCount`, `inFlightCount` and `admissionNacks` are ghost counters
instrumenting the settlement events: `failedCount` counts admitted
messages whose publish failed and were nacked (the spec's `failedCount`),
`inFlightCount` counts admitted messages whose publish result has not yet
resolved, and `admissionNacks` counts messages nacked at the admission
gate.  `cancelled` records whether `cancel()` has been called. -/
structure EngineState where
  acceptedCount : Nat
  processedCount : Nat
  failedCount : Nat
  inFlightCount : Nat
  admissionNacks : Nat
  cancelled : Bool
  deriving Repr, DecidableEq

/-- The engine state at job start: all counters zero, not cancelled. -/
def initState : EngineState :=
  { acceptedCount := 0, processedCount := 0, failedCount := 0,
    inFlightCount := 0, admissionNacks := 0, cancelled := false }

/-- The `maxMessages` computation of `processShovelRequest` (lines
150-155): the requested count for bounded jobs, and the fixed operational
ceiling 10000 when `allMessages` is set. -/
def effectiveMaxMessages (req : ShovelRequest) : Int :=
  if req.allMessages then 10000 else req.numMessages

/-- The mutex-guarded admission gate of the receive callback
(`processShovelRequest` lines 167-179).  The whole region runs under
`mutex.Lock()`, so it is one atomic step.  If `acceptedCount >=
maxMessages` the message is nacked, `cancel()` is called and nothing else
changes; otherwise `acceptedCount` is incremented and the message proceeds
to relay (becoming in flight).  Returns whether the message was
admitted. -/
def onArrive (maxMessages : Int) (s : EngineState) : Bool × EngineState :=
  if maxMessages ≤ (s.acceptedCount : Int) then
    (false, { s with admissionNacks := s.admissionNacks + 1, cancelled := true })
  else
    (true, { s with acceptedCount := s.acceptedCount + 1,
                    inFlightCount := s.inFlightCount + 1 })

/-- How an admitted message's bridge settles its original message. -/
inductive Settlement where
  | ackd
  | nackd
  deriving Repr, DecidableEq

/-- Resolution of one admitted message's publish result
(`processShovelRequest` lines 190-205): on publish failure the original
message is nacked and `acceptedCount` is deliberately not decremented; on
success the original message is acked and `processedCount` is incremented
(under the mutex).  The ghost counters record the settlement. -/
def settleBridge (publishOk : Bool) (s : EngineState) : Settlement × EngineState :=
  if publishOk then
    (Settlement.ackd,
      { s with processedCount := s.processedCount + 1,
               inFlightCount := s.inFlightCount - 1 })
  else
    (Settlement.nackd,
      { s with failedCount := s.failedCount + 1,
               inFlightCount := s.inFlightCount - 1 })

/-- Effect of the wall-clock timeout firing (`processShovelRequest` lines
223-226): `cancel()` is called and nothing else changes.  No counter is
touched and nothing is retried. -/
def onTimeout (s : EngineState) : EngineState :=
  { s with cancelled := true }

/-- One atomic step of the concurrent engine.  Arrivals (the mutex-guarded
admission region), settlements of in-flight bridges (one per admitted
unsettled message, resolving to ack or nack depending on the publish
outcome) and the timeout interleave in any order. -/
inductive Step (maxMessages : Int) : EngineState → EngineState → Prop where
  | arrive (s : EngineState) : Step maxMessages s (onArrive maxMessages s).2
  | settle (s : EngineState) (publishOk : Bool) (h : 0 < s.inFlightCount) :
      Step maxMessages s (settleBridge publishOk s).2
  | timeout (s : EngineState) : Step maxMessages s (onTimeout s)

/-- A state is reachable when some interleaving of engine steps produces
it from the initial state. -/
def Reachable (maxMessages : Int) (s : EngineState) : Prop :=
  Relation.ReflTransGen (Step maxMessages) initState s

/-- `validateRequest` from the `shovel` package (`part_000` lines 98-113).
Returns `some message` on rejection, `none` on acceptance, mirroring Go's
`error` return. -/
def validateRequest (req : ShovelRequest) : Option String :=
  if req.sourceSubscription = "" then
    some "sourceSubscription is required"
  else if req.targetTopic = "" then
    some "targetTopic is required"
  else if !req.allMessages && decide (req.numMessages ≤ 0) then
    some "numMessages must be greater than 0 when allMessages is false"
  else if req.allMessages && decide (0 < req.numMessages) then
    some "cannot specify both allMessages=true and numMessages > 0"
  else
    none

/-- `validateRequest` from root `main.go` (lines 96-110).  Same logic,
slightly different messages. -/
def validateRequestMain (req : ShovelRequest) : Option String :=
  if req.sourceSubscription = "" then
    some "sourceSubscription is required"
  else if req.targetTopic = "" then
    some "targetTopic is required"
  else if !req.allMessages && decide (req.numMessages ≤ 0) then
    some "numMessages must be positive when allMessages is false"
  else if req.allMessages && decide (0 < req.numMessages) then
    some "cannot specify both allMessages=true and numMessages"
  else
    none

/-- Accumulator loop of `splitResourceName` (identical in both Go files):
walk the characters, flushing the current segment on `/` when non-empty,
dropping empty segments. -/
def splitLoop (acc : List String) (current : String) : List Char → List String
  | [] => if current ≠ "" then acc ++ [current] else acc
  | c :: cs =>
      if c = '/' then
        if current ≠ "" then splitLoop (acc ++ [current]) "" cs
        else splitLoop acc "" cs
      else splitLoop acc (current.push c) cs

/-- `splitResourceName`: split a resource name by `/`, keeping only
non-empty segments. -/
def splitResourceName (name : String) : List String :=
  splitLoop [] "" name.toList

/-- `extractResourceName` from the `shovel` package (`part_000` lines
251-258): the last non-empty segment, or `""` when there is none. -/
def extractResourceName (fqdn : String) : String :=
  let parts := splitResourceName fqdn
  if 0 < parts.length then parts.getD (parts.length - 1) "" else ""

/-- `extractResourceName` from root `main.go` (lines 236-244): the fourth
non-empty segment when there are at least four, otherwise the whole input
as a fallback. -/
def extractResourceNameMain (fqdn : String) : String :=
  let parts := splitResourceName fqdn
  if 4 ≤ parts.length then parts.getD 3 "" else fqdn

/-- The distinguished error value `context.Canceled`, modelled by its
message string. -/
def contextCanceled : String := "context canceled"

/-- Outcomes of the external pubsub calls made by one job, abstracting the
source/sink collaborators: whether the client was created, the result of
the target-topic existence check, the error (if any) with which the
receive loop ended, and the engine counters at the end of the job. -/
structure Env where
  clientOk : Bool
  topicExistsCheck : Except String Bool
  receiveErr : Option String
  finalState : EngineState
  deriving Repr

/-- Whether a precondition of the job fails at start: client creation
fails, the existence check errors, or the target topic does not exist. -/
def preconditionFails (env : Env) : Bool :=
  !env.clientOk ||
    (match env.topicExistsCheck with
     | Except.error _ => true
     | Except.ok b => !b)

/-- The precondition and result path of `processShovelRequest` (`part_000`
lines 116-143 and 206-238) as a function of the request and the abstract
environment, returning Go's `(int, error)` pair.  The three precondition
failures each return `(0, err)` before the engine runs.  After the engine
runs, the receive-loop error is only logged (lines 208-210) and the
function returns `(finalProcessed, nil)` unconditionally (line 237). -/
def processShovelRequest (req : ShovelRequest) (env : Env) : Nat × Option String :=
  if !env.clientOk then
    (0, some "failed to create pubsub client")
  else
    match env.topicExistsCheck with
    | Except.error e => (0, some ("failed to check if target topic exists: " ++ e))
    | Except.ok false => (0, some ("target topic " ++ req.targetTopic ++ " does not exist"))
    | Except.ok true => (env.finalState.processedCount, none)

/-- The precondition and result path of `processMessages` (root `main.go`
lines 113-136 and 213-221).  Same precondition failures; after the loop,
a receive error other than `context.Canceled` is wrapped and returned
together with the partial count (line 216-218). -/
def processMessages (req : ShovelRequest) (env : Env) : Nat × Option String :=
  if !env.clientOk then
    (0, some "failed to create pubsub client")
  else
    match env.topicExistsCheck with
    | Except.error e => (0, some ("failed to check target topic existence: " ++ e))
    | Except.ok false => (0, some ("target topic " ++ req.targetTopic ++ " does not exist"))
    | Except.ok true =>
        match env.receiveErr with
        | some e =>
            if e = contextCanceled then (env.finalState.processedCount, none)
            else (env.finalState.processedCount,
                  some ("error during message processing: " ++ e))
        | none => (env.finalState.processedCount, none)

/-- The job-level wall-clock timeout of `processShovelRequest` in seconds
(lines 214-218): 5 minutes for bounded jobs, 10 minutes when
`allMessages` is set. -/
def jobTimeoutSeconds (req : ShovelRequest) : Nat :=
  if req.allMessages then 600 else 300

/-- The fixed grace sleep before reading the final counters
(`processShovelRequest` line 229): 2 seconds, independent of the job. -/
def graceSleepSeconds : Nat := 2

/-- The receive-context timeout of `processMessages` in seconds (root
`main.go` line 151): a flat 10 minutes, computed without looking at the
request's mode. -/
def receiveTimeoutSecondsMain (_req : ShovelRequest) : Nat := 600

/-- A concrete well-formed unbounded request. -/
def unboundedReq : ShovelRequest :=
  { numMessages := 0, allMessages := true,
    sourceSubscription := "projects/p/subscriptions/s",
    targetTopic := "projects/p/topics/t" }

/-- A concrete well-formed bounded request with target 5. -/
def boundedReq : ShovelRequest :=
  { numMessages := 5, allMessages := false,
    sourceSubscription := "projects/p/subscriptions/s",
    targetTopic := "projects/p/topics/t" }

/-- The engine state of an unbounded job after 10000 messages have been
admitted and none settled: the operational ceiling is exactly reached. -/
def ceilingState : EngineState :=
  { acceptedCount := 10000, processedCount := 0, failedCount := 0,
    inFlightCount := 10000, admissionNacks := 0, cancelled := false }

/-- An environment in which the job starts normally but the receive loop
ends with a connection error after 3 messages were relayed. -/
def receiveFailEnv : Env :=
  { clientOk := true, topicExistsCheck := Except.ok true,
    receiveErr := some "rpc error: connection reset",
    finalState := { acceptedCount := 3, processedCount := 3, failedCount := 0,
                    inFlightCount := 0, admissionNacks := 0, cancelled := true } }

/-- An environment in which client creation fails at job start. -/
def clientFailEnv : Env :=
  { clientOk := false, topicExistsCheck := Except.ok true,
    receiveErr := none, finalState := initState }

/-- The engine state after `n` messages have been admitted and none
settled: `n` accepted, all still in flight. -/
def allAdmitted (n : Nat) : EngineState :=
  { acceptedCount := n, processedCount := 0, failedCount := 0,
    inFlightCount := n, admissionNacks := 0, cancelled := false }

theorem reachable_counts (max : Int) (s : EngineState) (h : Reachable max s) :
    s.acceptedCount = s.processedCount + s.failedCount + s.inFlightCount ∧
    (0 ≤ max → (s.acceptedCount : Int) ≤ max) := by
  induction h with
  | refl => simp [initState]
  | tail hsteps hstep ih =>
    rename_i b c
    obtain ⟨ih1, ih2⟩ := ih
    cases hstep with
    | arrive =>
        by_cases hle : max ≤ (b.acceptedCount : Int)
        · simp only [onArrive, if_pos hle]
          exact ⟨ih1, ih2⟩
        · rw [not_le] at hle
          simp only [onArrive, not_le.mpr hle]
          constructor
          · show b.acceptedCount + 1 = b.processedCount + b.failedCount + (b.inFlightCount + 1)
            omega
          · intro h0
            show ((b.acceptedCount + 1 : Nat) : Int) ≤ max
            push_cast
            omega
    | settle publishOk hin =>
        cases publishOk
        · simp only [settleBridge, Bool.false_eq_true, if_false]
          exact ⟨by omega, ih2⟩
        · simp only [settleBridge, if_true]
          exact ⟨by omega, ih2⟩
    | timeout =>
        exact ⟨ih1, ih2⟩

theorem steps_mono (max : Int) {s s' : EngineState}
    (h : Relation.ReflTransGen (Step max) s s') :
    s.acceptedCount ≤ s'.acceptedCount ∧ s.processedCount ≤ s'.processedCount ∧
    s.failedCount ≤ s'.failedCount ∧ s.admissionNacks ≤ s'.admissionNacks := by
  induction h with
  | refl => exact ⟨le_refl _, le_refl _, le_refl _, le_refl _⟩
  | tail hsteps hstep ih =>
    rename_i b c
    obtain ⟨i1, i2, i3, i4⟩ := ih
    cases hstep with
    | arrive =>
        by_cases hle : max ≤ (b.acceptedCount : Int)
        · simp only [onArrive, if_pos hle]
          refine ⟨i1, i2, i3, ?_⟩
          show s.admissionNacks ≤ b.admissionNacks + 1
          omega
        · simp only [onArrive, if_neg hle]
          refine ⟨?_, i2, i3, i4⟩
          show s.acceptedCount ≤ b.acceptedCount + 1
          omega
    | settle publishOk hin =>
        cases publishOk
        · simp only [settleBridge, Bool.false_eq_true, if_false]
          refine ⟨i1, i2, ?_, i4⟩
          show s.failedCount ≤ b.failedCount + 1
          omega
        · simp only [settleBridge, if_true]
          refine ⟨i1, ?_, i3, i4⟩
          show s.processedCount ≤ b.processedCount + 1
          omega
    | timeout => exact ⟨i1, i2, i3, i4⟩

theorem allAdmitted_reachable (max : Int) (n : Nat) (h : (n : Int) ≤ max) :
    Reachable max (allAdmitted n) := by
  induction n with
  | zero => exact Relation.ReflTransGen.refl
  | succ k ih =>
    have hk : (k : Int) ≤ max := by push_cast at h ⊢; omega
    have hlt : ¬ max ≤ ((allAdmitted k).acceptedCount : Int) := by
      show ¬ max ≤ ((k : Nat) : Int)
      push_cast at h ⊢
      omega
    have harr : (onArrive max (allAdmitted k)).2 = allAdmitted (k + 1) := by
      simp only [onArrive, if_neg hlt]
      rfl
    exact Relation.ReflTransGen.tail (ih hk) (harr ▸ Step.arrive (allAdmitted k))

/-- C1: For a bounded job with target `N`, admission is the single atomic
check-and-increment `onArrive` on `acceptedCount`: in every state
reachable under any interleaving of engine steps `acceptedCount` never
exceeds `N`, a message is admitted exactly when the pre-increment
`acceptedCount` is strictly below `N`, and an admission increments
`acceptedCount` by exactly one. -/
theorem admission_check_and_increment (N : Int) (hN : 0 ≤ N)
    (s : EngineState) (hs : Reachable N s) :
    (s.acceptedCount : Int) ≤ N ∧
    ((onArrive N s).1 = true ↔ (s.acceptedCount : Int) < N) ∧
    ((onArrive N s).1 = true → (onArrive N s).2.acceptedCount = s.acceptedCount + 1) := by
  refine ⟨(reachable_counts N s hs).2 hN, ?_, ?_⟩
  · by_cases hle : N ≤ (s.acceptedCount : Int)
    · simp only [onArrive, if_pos hle]
      simp
      omega
    · simp only [onArrive, if_neg hle]
      simp
      omega
  · by_cases hle : N ≤ (s.acceptedCount : Int)
    · simp [onArrive, if_pos hle]
    · simp [onArrive, if_neg hle]

/-- C1 witness: instantiated at target 5 and the initial state. -/
theorem admission_check_and_increment_witness :
    ((initState.acceptedCount : Int) ≤ 5) ∧
    ((onArrive 5 initState).1 = true ↔ (initState.acceptedCount : Int) < 5) ∧
    ((onArrive 5 initState).1 = true →
      (onArrive 5 initState).2.acceptedCount = initState.acceptedCount + 1) :=
  admission_check_and_increment 5 (by decide) initState Relation.ReflTransGen.refl

/-- C2: An admitted message's bridge resolves to exactly one of two
outcomes.  The original message is acked exactly when the forward
succeeded (never without a successful forward) and nacked exactly when it
failed; success increments `processedCount` (the published counter) and
failure increments the failed counter; in both cases `acceptedCount` is
unchanged — the admitted slot is never freed or reused. -/
theorem relayBridge_settlement (publishOk : Bool) (s : EngineState) :
    ((settleBridge publishOk s).1 = Settlement.ackd ↔ publishOk = true) ∧
    ((settleBridge publishOk s).1 = Settlement.nackd ↔ publishOk = false) ∧
    (publishOk = true →
      (settleBridge publishOk s).2.processedCount = s.processedCount + 1 ∧
      (settleBridge publishOk s).2.failedCount = s.failedCount) ∧
    (publishOk = false →
      (settleBridge publishOk s).2.failedCount = s.failedCount + 1 ∧
      (settleBridge publishOk s).2.processedCount = s.processedCount) ∧
    (settleBridge publishOk s).2.acceptedCount = s.acceptedCount := by
  cases publishOk <;> simp [settleBridge]

/-- C2 witness: instantiated at a successful forward from the initial
state. -/
theorem relayBridge_settlement_witness :
    ((settleBridge true initState).1 = Settlement.ackd ↔ true = true) ∧
    ((settleBridge true initState).1 = Settlement.nackd ↔ true = false) ∧
    (true = true →
      (settleBridge true initState).2.processedCount = initState.processedCount + 1 ∧
      (settleBridge true initState).2.failedCount = initState.failedCount) ∧
    (true = false →
      (settleBridge true initState).2.failedCount = initState.failedCount + 1 ∧
      (settleBridge true initState).2.processedCount = initState.processedCount) ∧
    (settleBridge true initState).2.acceptedCount = initState.acceptedCount :=
  relayBridge_settlement true initState

/-- C3: A message delivered once `acceptedCount` has reached the target is
rejected: it is nacked immediately (`admissionNacks` grows, no ack), and
none of `acceptedCount`, `processedCount`, `failedCount` changes. -/
theorem admission_rejection_no_counters (N : Int) (s : EngineState)
    (h : N ≤ (s.acceptedCount : Int)) :
    (onArrive N s).1 = false ∧
    (onArrive N s).2.admissionNacks = s.admissionNacks + 1 ∧
    (onArrive N s).2.acceptedCount = s.acceptedCount ∧
    (onArrive N s).2.processedCount = s.processedCount ∧
    (onArrive N s).2.failedCount = s.failedCount := by
  simp [onArrive, if_pos h]

/-- C3 witness: instantiated at target 0 and the initial state. -/
theorem admission_rejection_no_counters_witness :
    (onArrive 0 initState).1 = false ∧
    (onArrive 0 initState).2.admissionNacks = initState.admissionNacks + 1 ∧
    (onArrive 0 initState).2.acceptedCount = initState.acceptedCount ∧
    (onArrive 0 initState).2.processedCount = initState.processedCount ∧
    (onArrive 0 initState).2.failedCount = initState.failedCount :=
  admission_rejection_no_counters 0 initState (by decide)

/-- C4: In every reachable state the RelayState counters satisfy
`acceptedCount = processedCount + failedCount + inFlightCount`, bounded
jobs never exceed their target, and along any further interleaving the
stored counters (accepted, published, failed) are monotonically
non-decreasing. -/
theorem relayState_counters_invariant (N : Int) (s t : EngineState)
    (hs : Reachable N s) (hsteps : Relation.ReflTransGen (Step N) s t) :
    t.acceptedCount = t.processedCount + t.failedCount + t.inFlightCount ∧
    (0 ≤ N → (t.acceptedCount : Int) ≤ N) ∧
    s.acceptedCount ≤ t.acceptedCount ∧
    s.processedCount ≤ t.processedCount ∧
    s.failedCount ≤ t.failedCount := by
  have h1 := reachable_counts N t (hs.trans hsteps)
  have h2 := steps_mono N hsteps
  exact ⟨h1.1, h1.2, h2.1, h2.2.1, h2.2.2.1⟩

/-- C4 witness: instantiated at target 1 and the reflexive interleaving
from the initial state. -/
theorem relayState_counters_invariant_witness :
    initState.acceptedCount =
      initState.processedCount + initState.failedCount + initState.inFlightCount ∧
    (0 ≤ (1 : Int) → (initState.acceptedCount : Int) ≤ 1) ∧
    initState.acceptedCount ≤ initState.acceptedCount ∧
    initState.processedCount ≤ initState.processedCount ∧
    initState.failedCount ≤ initState.failedCount :=
  relayState_counters_invariant 1 initState initState
    Relation.ReflTransGen.refl Relation.ReflTransGen.refl

/-- C5 counterexample: for an unbounded request the effective target is
the fixed ceiling 10000, the state with 10000 accepted messages is
reachable, and the next delivered message is rejected with `cancel()`
called — the ceiling logically terminates the job early, exactly like a
bounded target, contradicting the claim that unbounded jobs never stop at
an incidental count. -/
theorem unbounded_ceiling_cancels_cex :
    effectiveMaxMessages unboundedReq = 10000 ∧
    Reachable (effectiveMaxMessages unboundedReq) (allAdmitted 10000) ∧
    (onArrive (effectiveMaxMessages unboundedReq) (allAdmitted 10000)).1 = false ∧
    (onArrive (effectiveMaxMessages unboundedReq) (allAdmitted 10000)).2.cancelled = true := by
  have hm : effectiveMaxMessages unboundedReq = 10000 := rfl
  refine ⟨hm, ?_, ?_, ?_⟩
  · rw [hm]
    exact allAdmitted_reachable 10000 10000 (by norm_num)
  · rw [hm]
    simp [onArrive, allAdmitted]
  · rw [hm]
    simp [onArrive, allAdmitted]

/-- C5 (amended): for an unbounded job (`allMessages = true`) the engine
admits every delivered message only while fewer than 10000 have been
accepted; once `acceptedCount` reaches the operational ceiling 10000, a
further delivery is rejected and cancels the job — the ceiling behaves
exactly like a bounded target of 10000 rather than merely bounding
resource usage. -/
theorem unbounded_admission_upto_ceiling (req : ShovelRequest)
    (hreq : req.allMessages = true) (s : EngineState) :
    effectiveMaxMessages req = 10000 ∧
    ((onArrive (effectiveMaxMessages req) s).1 = true ↔ s.acceptedCount < 10000) ∧
    ((10000 : Int) ≤ (s.acceptedCount : Int) →
      (onArrive (effectiveMaxMessages req) s).1 = false ∧
      (onArrive (effectiveMaxMessages req) s).2.cancelled = true) := by
  have hm : effectiveMaxMessages req = 10000 := by
    simp [effectiveMaxMessages, hreq]
  refine ⟨hm, ?_, ?_⟩
  · rw [hm]
    by_cases hle : 10000 ≤ s.acceptedCount
    · simp [onArrive, hle]
    · simp [onArrive, hle]
      omega
  · intro h
    rw [hm]
    have h' : 10000 ≤ s.acceptedCount := by exact_mod_cast h
    simp [onArrive, h']

/-- C5 witness for the amended claim: the concrete unbounded request and
the initial state. -/
theorem unbounded_admission_upto_ceiling_witness :
    effectiveMaxMessages unboundedReq = 10000 ∧
    ((onArrive (effectiveMaxMessages unboundedReq) initState).1 = true ↔
      initState.acceptedCount < 10000) ∧
    ((10000 : Int) ≤ (initState.acceptedCount : Int) →
      (onArrive (effectiveMaxMessages unboundedReq) initState).1 = false ∧
      (onArrive (effectiveMaxMessages unboundedReq) initState).2.cancelled = true) :=
  unbounded_admission_upto_ceiling unboundedReq (by decide) initState

/-- C6 counterexample: in `processShovelRequest` a receive-loop failure
does not surface to the caller.  In the environment where the loop ends
with a connection error after 3 relayed messages, the job returns the
partial count 3 with a nil error. -/
theorem receive_error_swallowed_cex :
    receiveFailEnv.receiveErr = some "rpc error: connection reset" ∧
    processShovelRequest boundedReq receiveFailEnv = (3, none) := by
  exact ⟨rfl, by decide⟩

/-- C6 (amended): when the consumption loop errors out after the job has
started, the job terminates early and the partial counters accumulated so
far are returned as a valid result in both implementations; the failure
surfaces as a job-level error only in `processMessages` (and there only
when it is not `context.Canceled`), while `processShovelRequest` logs it
and reports success. -/
theorem source_loop_failure_result (req : ShovelRequest) (env : Env) (e : String)
    (hc : env.clientOk = true) (hex : env.topicExistsCheck = Except.ok true)
    (hr : env.receiveErr = some e) (hne : e ≠ contextCanceled) :
    processShovelRequest req env = (env.finalState.processedCount, none) ∧
    processMessages req env =
      (env.finalState.processedCount, some ("error during message processing: " ++ e)) := by
  simp [processShovelRequest, processMessages, hc, hex, hr, hne]

/-- C6 witness for the amended claim: the receive-failure environment. -/
theorem source_loop_failure_result_witness :
    processShovelRequest boundedReq receiveFailEnv =
      (receiveFailEnv.finalState.processedCount, none) ∧
    processMessages boundedReq receiveFailEnv =
      (receiveFailEnv.finalState.processedCount,
       some ("error during message processing: " ++ "rpc error: connection reset")) :=
  source_loop_failure_result boundedReq receiveFailEnv "rpc error: connection reset"
    rfl rfl rfl (by decide)

/-- C7: when a precondition check fails at job start (client creation
fails, the existence check errors, or the target topic does not exist)
both implementations abort with a zero count and an error, before any
message is admitted. -/
theorem precondition_failure_zero_counts (req : ShovelRequest) (env : Env)
    (h : preconditionFails env = true) :
    (processShovelRequest req env).1 = 0 ∧
    ((processShovelRequest req env).2).isSome = true ∧
    (processMessages req env).1 = 0 ∧
    ((processMessages req env).2).isSome = true := by
  unfold preconditionFails at h
  unfold processShovelRequest processMessages
  cases hc : env.clientOk with
  | false => simp
  | true =>
      rw [hc] at h
      simp only [Bool.not_true, Bool.false_or] at h
      cases hx : env.topicExistsCheck with
      | error e => simp
      | ok b =>
          rw [hx] at h
          cases b with
          | false => simp
          | true => simp at h

/-- C7 witness: the environment where client creation fails. -/
theorem precondition_failure_zero_counts_witness :
    (processShovelRequest boundedReq clientFailEnv).1 = 0 ∧
    ((processShovelRequest boundedReq clientFailEnv).2).isSome = true ∧
    (processMessages boundedReq clientFailEnv).1 = 0 ∧
    ((processMessages boundedReq clientFailEnv).2).isSome = true :=
  precondition_failure_zero_counts boundedReq clientFailEnv rfl

/-- C8: a job of the relay core uses two distinct timeouts — the
wall-clock timeout of 300 seconds for bounded jobs, strictly longer (600
seconds) for unbounded jobs, and the fixed 2-second grace period — and
the timeout firing only gates termination: it cancels the job and leaves
every counter unchanged (no retry). -/
theorem timeout_constants_and_gating (rb ru : ShovelRequest) (s : EngineState)
    (hb : rb.allMessages = false) (hu : ru.allMessages = true) :
    jobTimeoutSeconds rb = 300 ∧
    jobTimeoutSeconds ru = 600 ∧
    jobTimeoutSeconds rb < jobTimeoutSeconds ru ∧
    graceSleepSeconds = 2 ∧
    (onTimeout s).acceptedCount = s.acceptedCount ∧
    (onTimeout s).processedCount = s.processedCount ∧
    (onTimeout s).failedCount = s.failedCount ∧
    (onTimeout s).cancelled = true := by
  simp [jobTimeoutSeconds, graceSleepSeconds, onTimeout, hb, hu]

/-- C8 witness: the concrete bounded and unbounded requests and the
initial state. -/
theorem timeout_constants_and_gating_witness :
    jobTimeoutSeconds boundedReq = 300 ∧
    jobTimeoutSeconds unboundedReq = 600 ∧
    jobTimeoutSeconds boundedReq < jobTimeoutSeconds unboundedReq ∧
    graceSleepSeconds = 2 ∧
    (onTimeout initState).acceptedCount = initState.acceptedCount ∧
    (onTimeout initState).processedCount = initState.processedCount ∧
    (onTimeout initState).failedCount = initState.failedCount ∧
    (onTimeout initState).cancelled = true :=
  timeout_constants_and_gating boundedReq unboundedReq initState rfl rfl

/-- C9: `validateRequest` (both copies reject the same requests) returns
an error exactly when the source subscription is empty, the target topic
is empty, a bounded request has a non-positive count, or an unbounded
request has a strictly positive count; in particular an unbounded request
with a negative count passes validation, since the mutual-exclusion check
only rejects strictly positive counts. -/
theorem validateRequest_error_iff (req : ShovelRequest) :
    ((validateRequest req).isSome = true ↔
      (req.sourceSubscription = "" ∨ req.targetTopic = "" ∨
       (req.allMessages = false ∧ req.numMessages ≤ 0) ∨
       (req.allMessages = true ∧ 0 < req.numMessages))) ∧
    (validateRequestMain req).isSome = (validateRequest req).isSome ∧
    (req.allMessages = true → req.numMessages < 0 →
      req.sourceSubscription ≠ "" → req.targetTopic ≠ "" →
      validateRequest req = none ∧ validateRequestMain req = none) := by
  obtain ⟨n, all, src, tgt⟩ := req
  dsimp only
  refine ⟨?_, ?_, ?_⟩
  · unfold validateRequest
    cases all <;> rcases lt_or_le 0 n with hn | hn <;>
      by_cases hs : src = "" <;> by_cases ht : tgt = "" <;>
      simp_all
  · unfold validateRequest validateRequestMain
    split_ifs <;> rfl
  · intro hall hneg hsrc htgt
    have h1 : ¬ (0 < n) := by omega
    unfold validateRequest validateRequestMain
    simp [hall, hsrc, htgt, h1]

/-- C9 witness: the unbounded request with a negative count and non-empty
locators passes validation. -/
theorem validateRequest_error_iff_witness :
    ((validateRequest
        { numMessages := -1, allMessages := true,
          sourceSubscription := "s", targetTopic := "t" }).isSome = true ↔
      (("s" : String) = "" ∨ ("t" : String) = "" ∨
       (true = false ∧ (-1 : Int) ≤ 0) ∨
       (true = true ∧ (0 : Int) < -1))) ∧
    (validateRequestMain
        { numMessages := -1, allMessages := true,
          sourceSubscription := "s", targetTopic := "t" }).isSome =
      (validateRequest
        { numMessages := -1, allMessages := true,
          sourceSubscription := "s", targetTopic := "t" }).isSome ∧
    (true = true → (-1 : Int) < 0 → ("s" : String) ≠ "" → ("t" : String) ≠ "" →
      validateRequest
        { numMessages := -1, allMessages := true,
          sourceSubscription := "s", targetTopic := "t" } = none ∧
      validateRequestMain
        { numMessages := -1, allMessages := true,
          sourceSubscription := "s", targetTopic := "t" } = none) :=
  validateRequest_error_iff
    { numMessages := -1, allMessages := true,
      sourceSubscription := "s", targetTopic := "t" }

/-- C10 counterexample: the two `extractResourceName` implementations
disagree on the input `a/b` — the `main.go` one falls back to the whole
input while the `shovel` one returns the last segment. -/
theorem extractResourceName_disagrees_cex :
    extractResourceNameMain "a/b" = "a/b" ∧
    extractResourceName "a/b" = "b" ∧
    extractResourceNameMain "a/b" ≠ extractResourceName "a/b" := by
  decide

/-- C10 (amended): the two implementations agree on every input that
splits into exactly four non-empty segments — the expected
`projects/ID/collection/NAME` format — but not on arbitrary strings. -/
theorem extractResourceName_agree_on_fqdn (s : String)
    (h : (splitResourceName s).length = 4) :
    extractResourceNameMain s = extractResourceName s := by
  unfold extractResourceNameMain extractResourceName
  simp [h]

/-- C10 witness for the amended claim: a well-formed subscription FQDN. -/
theorem extractResourceName_agree_on_fqdn_witness :
    (splitResourceName "projects/p/subscriptions/sub").length = 4 ∧
    extractResourceNameMain "projects/p/subscriptions/sub" =
      extractResourceName "projects/p/subscriptions/sub" :=
  ⟨by decide,
   extractResourceName_agree_on_fqdn "projects/p/subscriptions/sub" (by decide)⟩
